import Mathlib

/-!
Verification of `src/Framework/framework_add_batchnorm.py`, a notebook-style
script that trains a convolutional CIFAR-10 classifier.

The script is shallowly embedded below.  Machine reals are modelled by `ℚ`
(the claims under study are structural, not about floating-point rounding);
the external deep-learning framework's numeric kernels (convolution weights,
cross-entropy, the inverse square root inside batch normalisation) enter as
explicit function parameters, while everything written in the script itself
(the split sizes, the data-loader batch sizes, the training loop `fit`, the
evaluator `evaluate`, `validation_epoch_end`, `accuracy`, the layer sequence
of `CIFAR10Model.forward`, and the training/eval mode semantics of dropout
and batch normalisation that the script relies on) is translated directly.
-/

namespace Framework

/-! ## Script constants (lines 52-68 and 282-288 of the source) -/

/-- Size of the CIFAR-10 training corpus loaded at line 24 (`len(dataset)`). -/
def dataset_size : ℕ := 50000

/-- Line 53: `val_size = 5000`. -/
def val_size : ℕ := 5000

/-- Line 54: `train_size = len(dataset) - val_size`. -/
def train_size (datasetLen : ℕ) : ℕ := datasetLen - val_size

/-- Line 52: `torch.manual_seed(43)`. -/
def split_seed : ℕ := 43

/-- Line 63: `batch_size=128`. -/
def batch_size : ℕ := 128

/-- Line 66: `DataLoader(train_ds, batch_size, shuffle=True, ...)`. -/
def train_loader_batch : ℕ := batch_size

/-- Line 67: `DataLoader(val_ds, batch_size*2, ...)`. -/
def val_loader_batch : ℕ := batch_size * 2

/-- Line 68: `DataLoader(test_dataset, batch_size*2, ...)`. -/
def test_loader_batch : ℕ := batch_size * 2

/-- Lines 282-288: the four training phases `fit(10, 1e-1)`, `fit(10, 1e-2)`,
`fit(10, 1e-3)`, `fit(10, 1e-4)`, as (epoch count, learning rate) pairs. -/
def phase_list : List (ℕ × ℚ) :=
  [(10, 1/10), (10, 1/100), (10, 1/1000), (10, 1/10000)]

/-! ## The train/validation split (line 57)

`torch.utils.data.random_split(dataset, [train_size, val_size])` draws a
permutation of the corpus indices (`randperm`) and hands out consecutive
slices of it: the first partition gets `perm[0:train_size]`, the second
`perm[train_size:train_size+val_size]`.  The permutation is any duplicate-free
enumeration of the corpus indices. -/

/-- `random_split(dataset, [len1, len2])`: consecutive slices of the index
permutation drawn by the framework. -/
def random_split (perm : List ℕ) (len1 len2 : ℕ) : List ℕ × List ℕ :=
  (perm.take len1, (perm.drop len1).take len2)

/-! ## Validation metrics: `validation_epoch_end` (lines 104-109) and
`evaluate` (lines 114-116) -/

/-- The dictionary `{'val_loss': ..., 'val_acc': ...}` returned by
`validation_step` (line 102) and `validation_epoch_end` (line 109). -/
structure ValResult where
  val_loss : ℚ
  val_acc : ℚ
deriving DecidableEq, Repr

/-- `torch.stack` over a list of scalar tensors: fails (raises) on an empty
list, otherwise returns the stacked values. -/
def stack (xs : List ℚ) : Option (List ℚ) :=
  match xs with
  | [] => none
  | x :: rest => some (x :: rest)

/-- `.mean()` of a stacked tensor of scalars. -/
def meanQ (xs : List ℚ) : ℚ := xs.sum / xs.length

/-- Lines 104-109: `validation_epoch_end` stacks the per-batch `val_loss`
and `val_acc` entries and averages each; `torch.stack` on the empty list
raises, modelled by `none`. -/
def validation_epoch_end (outputs : List ValResult) : Option ValResult :=
  match stack (outputs.map ValResult.val_loss),
        stack (outputs.map ValResult.val_acc) with
  | some losses, some accs => some ⟨meanQ losses, meanQ accs⟩
  | _, _ => none

/-- The list comprehension of line 115,
`[model.validation_step(batch) for batch in val_loader]`: the model's
mutable module state (of abstract type `σ`: batch-norm running statistics,
the random-number stream consumed by dropout) threads left to right through
the successive `validation_step` calls. -/
def validation_outputs {σ B : Type} (vstep : σ → B → σ × ValResult) :
    σ → List B → σ × List ValResult
  | s, [] => (s, [])
  | s, b :: bs =>
    let (s1, r) := vstep s b
    let (s2, rs) := validation_outputs vstep s1 bs
    (s2, r :: rs)

/-- Lines 114-116: `evaluate(model, val_loader)` runs `validation_step` on
every batch and combines the per-batch results with
`validation_epoch_end`. -/
def evaluate {σ B : Type} (vstep : σ → B → σ × ValResult) (s : σ)
    (bs : List B) : σ × Option ValResult :=
  let (s1, outs) := validation_outputs vstep s bs
  (s1, validation_epoch_end outs)

/-! ## Parameters, gradients and the SGD optimizer

`fit` (lines 118-132) sees the model through `model.parameters()` (a flat
collection of numeric tensors, modelled as one flat vector), the gradient
buffer that `loss.backward()` accumulates into, and the three per-batch
operations `backward` / `optimizer.step()` / `optimizer.zero_grad()`.
The loss value and the gradient that autograd computes for a batch come
from the external framework and enter as an explicit environment. -/

/-- Flat vector of scalar entries. -/
abbrev Vec := List ℚ

/-- Pointwise sum of two vectors. -/
def vecAdd (a b : Vec) : Vec := List.zipWith (· + ·) a b

/-- Pointwise difference of two vectors. -/
def vecSub (a b : Vec) : Vec := List.zipWith (· - ·) a b

/-- Scalar multiple of a vector. -/
def smulVec (c : ℚ) (v : Vec) : Vec := v.map (fun x => c * x)

/-- A zero vector of the same length (`optimizer.zero_grad()` writes zeros
into every parameter's gradient buffer). -/
def zerosLike (v : Vec) : Vec := v.map (fun _ => 0)

/-- The external framework, seen from `fit`: the scalar cross-entropy loss
of `training_step` (lines 91-95), the gradient that `loss.backward()`
accumulates, and the `{val_loss, val_acc}` that `validation_step` reports
for the current parameters. -/
structure Autograd (B : Type) where
  lossOf : Vec → B → ℚ
  gradOf : Vec → B → Vec
  valStep : Vec → B → ValResult

/-- State of a `torch.optim.SGD` optimizer (defaults: dampening 0, weight
decay 0, nesterov off): the learning rate, the momentum hyperparameter, and
the momentum buffer, which does not exist until the first `step()` with
nonzero momentum. -/
structure SGDState where
  lr : ℚ
  momentum : ℚ
  buf : Option Vec
deriving DecidableEq, Repr

/-- Line 120: `optimizer = opt_func(model.parameters(), lr)` constructs a
fresh optimizer; its momentum buffer starts empty. -/
def SGDState.fresh (lr momentum : ℚ) : SGDState := ⟨lr, momentum, none⟩

/-- One `optimizer.step()` of `torch.optim.SGD` on parameters `params` whose
gradient buffer holds `grads`: without momentum the update is
`p ← p - lr * g`; with momentum the buffer becomes `μ * buf + g` (just `g`
when the buffer does not exist yet) and `p ← p - lr * buf`. -/
def sgd_step (opt : SGDState) (params grads : Vec) : Vec × SGDState :=
  if opt.momentum = 0 then
    (vecSub params (smulVec opt.lr grads), opt)
  else
    let b := match opt.buf with
      | none => grads
      | some b0 => vecAdd (smulVec opt.momentum b0) grads
    (vecSub params (smulVec opt.lr b), { opt with buf := some b })

/-- The model as `fit` mutates it: its parameter vector and the gradient
buffer written by `backward` and cleared by `zero_grad`. -/
structure MState where
  params : Vec
  grads : Vec
deriving DecidableEq, Repr

/-- Lines 124-125: `loss = model.training_step(batch); loss.backward()` —
autograd accumulates (adds) the gradient of this batch's loss into the
gradient buffer. -/
def backward {B : Type} (env : Autograd B) (s : MState) (b : B) : MState :=
  { s with grads := vecAdd s.grads (env.gradOf s.params b) }

/-- Line 126: `optimizer.step()` reads the gradient buffer and writes the
parameters. -/
def opt_step (s : MState) (opt : SGDState) : MState × SGDState :=
  let (p, opt1) := sgd_step opt s.params s.grads
  ({ s with params := p }, opt1)

/-- Line 127: `optimizer.zero_grad()` clears the gradient buffer. -/
def zero_grad (s : MState) : MState :=
  { s with grads := zerosLike s.grads }

/-- Lines 123-127, one iteration of the inner loop: training-step loss,
`backward`, `optimizer.step()`, `optimizer.zero_grad()`, in that order. -/
def train_batch {B : Type} (env : Autograd B) (s : MState) (opt : SGDState)
    (b : B) : MState × SGDState :=
  let s1 := backward env s b
  let (s2, opt1) := opt_step s1 opt
  (zero_grad s2, opt1)

/-- The full inner loop of one epoch: `for batch in train_loader: ...`. -/
def train_epoch {B : Type} (env : Autograd B) (batches : List B)
    (so : MState × SGDState) : MState × SGDState :=
  batches.foldl (fun p b => train_batch env p.1 p.2 b) so

/-- The `validation_step` of the `fit`-level model view: reading the current
parameters mutates nothing at this level. -/
def fit_vstep {B : Type} (env : Autograd B) (m : MState) (b : B) :
    MState × ValResult :=
  (m, env.valStep m.params b)

/-- Lines 121-131, the epoch loop of `fit`: train over every batch, then
`result = evaluate(model, val_loader)` and `history.append(result)`.  An
exception from `evaluate` (empty validation loader) aborts `fit`, hence the
`Option`. -/
def fit_loop {B : Type} (env : Autograd B) (train_batches val_batches : List B) :
    ℕ → MState → SGDState → List ValResult →
    Option (List ValResult × MState × SGDState)
  | 0, s, opt, hist => some (hist, s, opt)
  | n + 1, s, opt, hist =>
    let (s1, opt1) := train_epoch env train_batches (s, opt)
    match (evaluate (fit_vstep env) s1 val_batches).2 with
    | none => none
    | some r => fit_loop env train_batches val_batches n s1 opt1 (hist ++ [r])

/-- Lines 118-132: `fit(epochs, lr, model, train_loader, val_loader,
opt_func)`.  `opt_func` is SGD with the given momentum hyperparameter (the
script always calls `fit` with the default `torch.optim.SGD`, i.e. momentum
0); line 120 constructs the optimizer afresh inside `fit`.  Returns the
history together with the final model and (internal) optimizer state. -/
def fit {B : Type} (env : Autograd B) (epochs : ℕ) (lr : ℚ) (model : MState)
    (train_batches val_batches : List B) (momentum : ℚ) :
    Option (List ValResult × MState × SGDState) :=
  fit_loop env train_batches val_batches epochs model
    (SGDState.fresh lr momentum) []

/-- Lines 282-288: `history += fit(...)` repeated over the phase list.  The
model instance carries over from each phase to the next; the optimizer that
the finished `fit` call held is dropped. -/
def run_phases {B : Type} (env : Autograd B) (momentum : ℚ)
    (train_batches val_batches : List B) :
    MState → List (ℕ × ℚ) → Option (List ValResult × MState)
  | m, [] => some ([], m)
  | m, (e, lr) :: rest =>
    match fit env e lr m train_batches val_batches momentum with
    | none => none
    | some (h, m1, _opt) =>
      match run_phases env momentum train_batches val_batches m1 rest with
      | none => none
      | some (h2, m2) => some (h ++ h2, m2)

/-! ## The network: `CIFAR10Model` (lines 207-264)

`forward` is embedded over a tensor type `Tensor = List (List ℚ)`: before
the flatten step the outer list indexes channels and the inner list holds
that channel's values across the batch and spatial positions; the external
`flatten` reshape switches to rows-per-sample.  Convolutions, linears,
max-pooling, the flatten reshape and `F.cross_entropy` are external
framework kernels carrying the current weights and enter through `NetEnv`;
ReLU, the `accuracy` helper of lines 86-88, and the training/eval-mode
behaviour of batch normalisation and dropout (the state the script's
mode-handling determines) are embedded concretely. -/

/-- Tensor: list of channels (each a list of values), or after the flatten
reshape a list of per-sample score rows. -/
abbrev Tensor := List (List ℚ)

/-- `F.relu`, elementwise. -/
def reluT (x : Tensor) : Tensor := x.map (fun row => row.map (fun v => max v 0))

/-- Index of the first maximal entry of a row (`torch.max(outputs, dim=1)`
of line 87). -/
def argmaxIdx (xs : List ℚ) : ℕ :=
  (xs.foldl (fun (acc : ℕ × Option ℚ × ℕ) v =>
    match acc with
    | (_, none, i) => (i, some v, i + 1)
    | (bi, some bv, i) =>
      if bv < v then (i, some v, i + 1) else (bi, some bv, i + 1))
    (0, none, 0)).1

/-- Lines 86-88: `accuracy(outputs, labels)` — the fraction of rows whose
highest-scoring class index equals the true label. -/
def accuracy (outputs : Tensor) (labels : List ℕ) : ℚ :=
  let preds := outputs.map argmaxIdx
  (List.zipWith (fun p l => if p = l then (1 : ℚ) else 0) preds labels).sum
    / preds.length

/-- Running statistics of one channel of a `nn.BatchNorm2d` module
(`running_mean` starts at 0, `running_var` at 1). -/
structure BNChan where
  running_mean : ℚ
  running_var : ℚ
deriving DecidableEq, Repr

/-- Per-channel running statistics of one batch-norm module. -/
abbrev BNState := List BNChan

/-- Default `momentum` of `nn.BatchNorm2d`. -/
def bnMomentum : ℚ := 1 / 10

/-- One channel of `nn.BatchNorm2d` in training mode: normalise with the
batch statistics (the inverse standard deviation `invStd` is the
framework's numeric kernel) and fold the batch mean and the unbiased batch
variance into the running statistics with weight `m`. -/
def bn_chan_train (invStd : ℚ → ℚ) (γ β m : ℚ) (st : BNChan) (xs : List ℚ) :
    BNChan × List ℚ :=
  let n : ℚ := xs.length
  let μ := meanQ xs
  let v := meanQ (xs.map (fun x => (x - μ) ^ 2))
  let vU := v * n / (n - 1)
  ({ running_mean := (1 - m) * st.running_mean + m * μ,
     running_var := (1 - m) * st.running_var + m * vU },
   xs.map (fun x => γ * ((x - μ) * invStd v) + β))

/-- One channel of `nn.BatchNorm2d` in eval mode: normalise with the stored
running statistics; the stored statistics are untouched. -/
def bn_chan_eval (invStd : ℚ → ℚ) (γ β : ℚ) (st : BNChan) (xs : List ℚ) :
    BNChan × List ℚ :=
  (st, xs.map (fun x => γ * ((x - st.running_mean) * invStd st.running_var) + β))

/-- A batch-norm module applied channel by channel: `wb` holds the module's
affine parameters (weight, bias) per channel. -/
def bn_apply (invStd : ℚ → ℚ) (m : ℚ) (training : Bool) :
    List (ℚ × ℚ) → BNState → Tensor → BNState × Tensor
  | (γ, β) :: wbs, c :: cs, ch :: chs =>
    let (c1, o) := if training then bn_chan_train invStd γ β m c ch
                   else bn_chan_eval invStd γ β c ch
    let (cs1, os) := bn_apply invStd m training wbs cs chs
    (c1 :: cs1, o :: os)
  | _, _, _ => ([], [])

/-- The pseudo-random boolean stream that `nn.Dropout2d` consumes, with its
read position. -/
structure RNG where
  seq : ℕ → Bool
  pos : ℕ

/-- Draw one boolean from the stream. -/
def RNG.next (r : RNG) : Bool × RNG := (r.seq r.pos, { r with pos := r.pos + 1 })

/-- Dropout with rate 1/2 over one row: each kept entry is scaled by
`1/(1-p) = 2`, each dropped entry becomes 0. -/
def dropout_vals : RNG → List ℚ → RNG × List ℚ
  | r, [] => (r, [])
  | r, x :: xs =>
    let (keep, r1) := r.next
    let (r2, ys) := dropout_vals r1 xs
    (r2, (if keep then 2 * x else 0) :: ys)

/-- Dropout over a tensor, row by row. -/
def dropout_tensor : RNG → Tensor → RNG × Tensor
  | r, [] => (r, [])
  | r, row :: rows =>
    let (r1, o) := dropout_vals r row
    let (r2, os) := dropout_tensor r1 rows
    (r2, o :: os)

/-- `self.dropout1 = nn.Dropout2d(0.5)` (line 221): active only in training
mode; in eval mode it is the identity and consumes no randomness. -/
def dropout_apply (training : Bool) (r : RNG) (x : Tensor) : RNG × Tensor :=
  if training then dropout_tensor r x else (r, x)

/-- The external kernels of `CIFAR10Model`: the six convolutions and two
linear layers (closing over their current weights), max-pooling and the
flatten reshape, the per-channel affine parameters of `bn1`-`bn3`, the
inverse-standard-deviation kernel of batch normalisation, and
`F.cross_entropy`. -/
structure NetEnv where
  conv1 : Tensor → Tensor
  conv2 : Tensor → Tensor
  conv3 : Tensor → Tensor
  conv4 : Tensor → Tensor
  conv5 : Tensor → Tensor
  conv6 : Tensor → Tensor
  linear1 : Tensor → Tensor
  linear2 : Tensor → Tensor
  maxpool : Tensor → Tensor
  flattenR : Tensor → Tensor
  bn1p : List (ℚ × ℚ)
  bn2p : List (ℚ × ℚ)
  bn3p : List (ℚ × ℚ)
  invStd : ℚ → ℚ
  xent : Tensor → List ℕ → ℚ

/-- The mutable module state of a `CIFAR10Model` instance: the running
statistics of `bn1`, `bn2`, `bn3`, the random stream feeding `dropout1`,
and the shared training/eval mode flag of its modules. -/
structure NetState where
  bn1 : BNState
  bn2 : BNState
  bn3 : BNState
  rng : RNG
  training : Bool

/-- A freshly constructed `CIFAR10Model` (lines 207-225): running means 0,
running variances 1, and — since `nn.Module`s start in training mode and
the script never calls `model.eval()` or `model.train(False)` — the mode
flag is `true` everywhere, in particular when `evaluate` runs. -/
def NetState.initial (rng : RNG) : NetState :=
  { bn1 := List.replicate 9 ⟨0, 1⟩
    bn2 := List.replicate 18 ⟨0, 1⟩
    bn3 := List.replicate 36 ⟨0, 1⟩
    rng := rng
    training := true }

/-- Lines 227-264: `CIFAR10Model.forward`.  Three parts of
conv/relu/bn/conv/relu/bn/maxpool — the SAME batch-norm module is applied
after both convolutions of a part — then flatten, `linear1`, relu,
`dropout1`, `linear2`. -/
def forward (env : NetEnv) (s : NetState) (xb : Tensor) : NetState × Tensor :=
  let out := xb
  let out := env.conv1 out
  let out := reluT out
  let (b1, out) := bn_apply env.invStd bnMomentum s.training env.bn1p s.bn1 out
  let out := env.conv2 out
  let out := reluT out
  let (b1, out) := bn_apply env.invStd bnMomentum s.training env.bn1p b1 out
  let out := env.maxpool out
  let out := env.conv3 out
  let out := reluT out
  let (b2, out) := bn_apply env.invStd bnMomentum s.training env.bn2p s.bn2 out
  let out := env.conv4 out
  let out := reluT out
  let (b2, out) := bn_apply env.invStd bnMomentum s.training env.bn2p b2 out
  let out := env.maxpool out
  let out := env.conv5 out
  let out := reluT out
  let (b3, out) := bn_apply env.invStd bnMomentum s.training env.bn3p s.bn3 out
  let out := env.conv6 out
  let out := reluT out
  let (b3, out) := bn_apply env.invStd bnMomentum s.training env.bn3p b3 out
  let out := env.maxpool out
  let out := env.flattenR out
  let out := env.linear1 out
  let out := reluT out
  let (r, out) := dropout_apply s.training s.rng out
  let out := env.linear2 out
  ({ bn1 := b1, bn2 := b2, bn3 := b3, rng := r, training := s.training }, out)

/-- Lines 97-102: `validation_step` at the network level — run `forward`
(threading the module state), then cross-entropy loss and `accuracy`. -/
def net_validation_step (env : NetEnv) (s : NetState)
    (batch : Tensor × List ℕ) : NetState × ValResult :=
  let (s1, out) := forward env s batch.1
  (s1, ⟨env.xent out batch.2, accuracy out batch.2⟩)

/-! ## Spec-side view of `forward`: three stages and a fully-connected head

These two definitions follow the words of the specification
("each of 3 stages applies two convolutions (each followed by activation
and batch normalization sharing the stage's batch-norm statistics) then
halves spatial resolution; after the final stage, the tensor is flattened
and passed through two fully-connected layers with a dropout regularization
step (active only during training) between them") and are compared with
`forward` as embedded from the source. -/

/-- One stage per the spec: two convolutions, each followed by the
activation and then batch normalisation through the stage's single shared
batch-norm module (shared parameters `bnp`, shared running statistics
`st`), then the resolution-halving pooling step. -/
def spec_stage (env : NetEnv) (convA convB : Tensor → Tensor)
    (bnp : List (ℚ × ℚ)) (training : Bool) (st : BNState) (x : Tensor) :
    BNState × Tensor :=
  let o := reluT (convA x)
  let (st1, o) := bn_apply env.invStd bnMomentum training bnp st o
  let o := reluT (convB o)
  let (st2, o) := bn_apply env.invStd bnMomentum training bnp st1 o
  (st2, env.maxpool o)

/-- The head per the spec: flatten, first fully-connected layer, then the
dropout step (active only during training) between the two fully-connected
layers, then the second one. -/
def spec_head (env : NetEnv) (training : Bool) (rng : RNG) (x : Tensor) :
    RNG × Tensor :=
  let o := reluT (env.linear1 (env.flattenR x))
  let (r, o) := dropout_apply training rng o
  (r, env.linear2 o)

/-! ## Shape semantics of the layer configuration (lines 210-219)

Each layer's effect on the (channels, height, width) shape, read off the
constructor arguments in `CIFAR10Model.__init__`: every convolution is 3×3
with padding 1 (spatial size preserved), `maxpool1 = nn.MaxPool2d(2, 2)`
halves both spatial dimensions, `linear1 = nn.Linear(576, 100)` and
`linear2 = nn.Linear(100, 10)`.  A shape mismatch is `none`. -/

/-- Shape of an (unbatched) activation tensor. -/
structure Shape where
  chans : ℕ
  height : ℕ
  width : ℕ
deriving DecidableEq, Repr

/-- `nn.Conv2d(cin, cout, 3, padding=1)`: output spatial size
`h + 2*1 - 3 + 1 = h`; requires `cin` input channels. -/
def conv2d_shape (cin cout : ℕ) (s : Shape) : Option Shape :=
  if s.chans = cin then some ⟨cout, s.height + 2 * 1 - 3 + 1, s.width + 2 * 1 - 3 + 1⟩
  else none

/-- `nn.BatchNorm2d(features)`: shape preserved; requires `features`
channels. -/
def bn_shape (features : ℕ) (s : Shape) : Option Shape :=
  if s.chans = features then some s else none

/-- `nn.MaxPool2d(2, 2)`: halves height and width. -/
def maxpool_shape (s : Shape) : Shape := ⟨s.chans, s.height / 2, s.width / 2⟩

/-- Shape of one stage (conv, relu, bn, conv, relu, bn, maxpool) with `cin`
input and `cout` output channels. -/
def stage_shape (cin cout : ℕ) (s : Shape) : Option Shape :=
  ((((conv2d_shape cin cout s).bind (bn_shape cout)).bind
    (conv2d_shape cout cout)).bind (bn_shape cout)).map maxpool_shape

/-- `torch.flatten(out, 1)`: feature count of the flattened tensor. -/
def flatten_shape (s : Shape) : ℕ := s.chans * s.height * s.width

/-- `nn.Linear(inF, outF)`: requires `inF` input features. -/
def linear_shape (inF outF n : ℕ) : Option ℕ :=
  if n = inF then some outF else none

/-- The whole network's shape pipeline: the three stages with channel
counts 3→9→18→36 (lines 210-216), flatten, `Linear(576, 100)`,
`Linear(100, 10)`. -/
def cifar_shape (s : Shape) : Option ℕ :=
  ((((stage_shape 3 9 s).bind (stage_shape 9 18)).bind (stage_shape 18 36)).bind
    (fun sh => linear_shape 576 100 (flatten_shape sh))).bind (linear_shape 100 10)

/-! ## Helper lemmas -/

/-- A vector whose entries are all zero (the state `optimizer.zero_grad()`
leaves the gradient buffer in). -/
abbrev isZero (v : Vec) : Prop := ∀ x ∈ v, x = 0

lemma isZero_zerosLike (v : Vec) : isZero (zerosLike v) := by
  intro x hx
  rcases List.mem_map.mp hx with ⟨y, _, rfl⟩
  rfl

lemma vecAdd_zero_left : ∀ (z g : Vec), isZero z → z.length = g.length →
    vecAdd z g = g
  | [], [], _, _ => rfl
  | [], _ :: _, _, hlen => by simp at hlen
  | _ :: _, [], _, hlen => by simp at hlen
  | a :: zs, b :: bs, hz, hlen => by
    have ha : a = 0 := hz a (List.mem_cons_self a zs)
    have ht : vecAdd zs bs = bs :=
      vecAdd_zero_left zs bs (fun x hx => hz x (List.mem_cons_of_mem a hx))
        (by simpa using hlen)
    simp [vecAdd, ha] at ht ⊢
    exact ht

lemma length_vecSub (a b : Vec) : (vecSub a b).length = min a.length b.length :=
  List.length_zipWith ..

lemma length_smulVec (c : ℚ) (v : Vec) : (smulVec c v).length = v.length :=
  List.length_map ..

/-- What one pass of the inner loop body (lines 124-127) does to the model
when the gradient buffer starts cleared and the optimizer is the script's
plain SGD (momentum 0): the parameters take one gradient-descent step
scaled by the learning rate on this batch's gradient, the gradient buffer
ends cleared, and the optimizer is unchanged. -/
lemma train_batch_eq {B : Type} (env : Autograd B) (s : MState) (opt : SGDState)
    (b : B) (hm : opt.momentum = 0) (hz : isZero s.grads)
    (hglen : s.grads.length = s.params.length)
    (hwb : (env.gradOf s.params b).length = s.params.length) :
    train_batch env s opt b =
      ({ params := vecSub s.params (smulVec opt.lr (env.gradOf s.params b)),
         grads := zerosLike (env.gradOf s.params b) }, opt) := by
  have hacc : vecAdd s.grads (env.gradOf s.params b) = env.gradOf s.params b :=
    vecAdd_zero_left _ _ hz (by rw [hglen, hwb])
  simp [train_batch, backward, opt_step, zero_grad, sgd_step, hm, hacc]

/-- `evaluate` on a nonempty batch list returns a result. -/
lemma evaluate_some_of_ne_nil {σ B : Type} (vstep : σ → B → σ × ValResult)
    (s : σ) (bs : List B) (h : bs ≠ []) :
    (evaluate vstep s bs).2 =
      some ⟨meanQ ((validation_outputs vstep s bs).2.map ValResult.val_loss),
            meanQ ((validation_outputs vstep s bs).2.map ValResult.val_acc)⟩ := by
  cases bs with
  | nil => exact absurd rfl h
  | cons b rest =>
    simp only [evaluate, validation_outputs]
    simp [validation_epoch_end, stack]

/-- Over a whole epoch, with the gradient buffer initially cleared and the
script's plain SGD: the parameters evolve by one gradient-descent step per
batch, the buffer is again cleared at the end, its length is preserved, and
the optimizer state is untouched. -/
lemma train_epoch_gd {B : Type} (env : Autograd B)
    (hwf : ∀ p b, (env.gradOf p b).length = p.length) :
    ∀ (bs : List B) (s : MState) (opt : SGDState), opt.momentum = 0 →
      isZero s.grads → s.grads.length = s.params.length →
      (train_epoch env bs (s, opt)).1.params =
        bs.foldl (fun p b => vecSub p (smulVec opt.lr (env.gradOf p b))) s.params ∧
      isZero (train_epoch env bs (s, opt)).1.grads ∧
      (train_epoch env bs (s, opt)).1.grads.length =
        (train_epoch env bs (s, opt)).1.params.length ∧
      (train_epoch env bs (s, opt)).2 = opt
  | [], s, opt, _, hz, hglen => ⟨rfl, hz, hglen, rfl⟩
  | b :: bs, s, opt, hm, hz, hglen => by
    have hstep := train_batch_eq env s opt b hm hz hglen (hwf _ _)
    have hunfold : train_epoch env (b :: bs) (s, opt) =
        train_epoch env bs (train_batch env s opt b) := rfl
    rw [hunfold, hstep]
    have hz1 : isZero (zerosLike (env.gradOf s.params b)) := isZero_zerosLike _
    have hlen1 : (zerosLike (env.gradOf s.params b)).length =
        (vecSub s.params (smulVec opt.lr (env.gradOf s.params b))).length := by
      rw [length_vecSub, length_smulVec, hwf, min_self]
      exact (List.length_map _ _).trans (hwf _ _)
    have ih := train_epoch_gd env hwf bs
      ⟨vecSub s.params (smulVec opt.lr (env.gradOf s.params b)),
        zerosLike (env.gradOf s.params b)⟩ opt hm hz1 hlen1
    simpa using ih

lemma vecSub_smul_eq_self : ∀ (p g : Vec) (c : ℚ), g.length = p.length →
    vecSub p (smulVec c g) = p → ∀ x ∈ g, c * x = 0
  | _, [], _, _, _ => by simp
  | [], _ :: _, _, hlen, _ => by simp at hlen
  | q :: ps, x :: xs, c, hlen, h => by
    simp only [vecSub, smulVec, List.map_cons, List.zipWith_cons_cons,
      List.cons.injEq] at h
    intro y hy
    rcases List.mem_cons.mp hy with rfl | hmem
    · have hq : q - c * y = q := h.1
      linarith
    · exact vecSub_smul_eq_self ps xs c (by simpa using hlen) h.2 y hmem

/-- One epoch of `fit_loop`, peeled off the front. -/
lemma fit_loop_succ_eq {B : Type} (env : Autograd B) (tb vb : List B)
    (n : ℕ) (s s1 : MState) (opt opt1 : SGDState) (h0 : List ValResult)
    (hte : train_epoch env tb (s, opt) = (s1, opt1)) :
    fit_loop env tb vb (n + 1) s opt h0 =
      match (evaluate (fit_vstep env) s1 vb).2 with
      | none => none
      | some r => fit_loop env tb vb n s1 opt1 (h0 ++ [r]) := by
  simp only [fit_loop, hte]

/-- The history accumulator of `fit_loop` only ever grows by appending:
running with initial history `h0` is running with `[]` and prepending
`h0`. -/
lemma fit_loop_append {B : Type} (env : Autograd B) (tb vb : List B) :
    ∀ (n : ℕ) (s : MState) (opt : SGDState) (h0 : List ValResult),
      fit_loop env tb vb n s opt h0 =
        (fit_loop env tb vb n s opt []).map (fun r => (h0 ++ r.1, r.2))
  | 0, s, opt, h0 => by simp [fit_loop]
  | n + 1, s, opt, h0 => by
    rcases hte : train_epoch env tb (s, opt) with ⟨s1, opt1⟩
    rw [fit_loop_succ_eq env tb vb n s s1 opt opt1 h0 hte,
      fit_loop_succ_eq env tb vb n s s1 opt opt1 [] hte]
    cases hev : (evaluate (fit_vstep env) s1 vb).2 with
    | none => rfl
    | some r =>
      simp only [List.nil_append]
      rw [fit_loop_append env tb vb n s1 opt1 (h0 ++ [r]),
        fit_loop_append env tb vb n s1 opt1 [r]]
      cases fit_loop env tb vb n s1 opt1 [] <;> simp

/-- With a nonempty validation loader, `fit_loop` always returns, its
history holds exactly one record per epoch, and running one more epoch
appends exactly one record after the existing ones. -/
lemma fit_loop_run {B : Type} (env : Autograd B) (tb vb : List B)
    (hvb : vb ≠ []) :
    ∀ (n : ℕ) (s : MState) (opt : SGDState),
      ∃ hist m1 opt1, fit_loop env tb vb n s opt [] = some (hist, m1, opt1) ∧
        hist.length = n ∧
        ∃ m2 opt2 r, fit_loop env tb vb (n + 1) s opt [] =
          some (hist ++ [r], m2, opt2)
  | 0, s, opt => by
    rcases hte : train_epoch env tb (s, opt) with ⟨s1, opt1⟩
    refine ⟨[], s, opt, rfl, rfl, s1, opt1, ?_⟩
    obtain ⟨r, hr⟩ : ∃ r, (evaluate (fit_vstep env) s1 vb).2 = some r :=
      ⟨_, evaluate_some_of_ne_nil _ _ _ hvb⟩
    refine ⟨r, ?_⟩
    rw [fit_loop_succ_eq env tb vb 0 s s1 opt opt1 [] hte, hr]
    rfl
  | n + 1, s, opt => by
    rcases hte : train_epoch env tb (s, opt) with ⟨s1, opt1⟩
    obtain ⟨r, hr⟩ : ∃ r, (evaluate (fit_vstep env) s1 vb).2 = some r :=
      ⟨_, evaluate_some_of_ne_nil _ _ _ hvb⟩
    obtain ⟨hist, m1, o1, h1, hlen, m2, o2, r2, h2⟩ :=
      fit_loop_run env tb vb hvb n s1 opt1
    refine ⟨r :: hist, m1, o1, ?_, by simpa using hlen, m2, o2, r2, ?_⟩
    · rw [fit_loop_succ_eq env tb vb n s s1 opt opt1 [] hte, hr]
      simp only [List.nil_append]
      rw [fit_loop_append env tb vb n s1 opt1 [r], h1]
      rfl
    · rw [fit_loop_succ_eq env tb vb (n + 1) s s1 opt opt1 [] hte, hr]
      simp only [List.nil_append]
      rw [fit_loop_append env tb vb (n + 1) s1 opt1 [r], h2]
      simp

/-! ## Concrete network instances for the evaluation-mode claims

Reduced-width instances of the external kernels (identity convolutions and
linears, identity pooling and reshape, constant cross-entropy, unit inverse
standard deviation) — the model weights are arbitrary data, and the claims
these instances settle concern only the training/eval-mode handling of
batch normalisation and dropout, which is embedded exactly. -/

/-- Kernel instance for the running-statistics claim: one channel per
stage, batch-norm affine parameters `γ = 1, β = 0`. -/
def bnstat_env : NetEnv :=
  { conv1 := id, conv2 := id, conv3 := id, conv4 := id, conv5 := id,
    conv6 := id, linear1 := id, linear2 := id, maxpool := id, flattenR := id,
    bn1p := [(1, 0)], bn2p := [(1, 0)], bn3p := [(1, 0)],
    invStd := fun _ => 1, xent := fun _ _ => 0 }

/-- A freshly initialised one-channel model state: running means 0, running
variances 1, and the training flag still `true` — the script never calls
`model.eval()`. -/
def bnstat_state : NetState :=
  { bn1 := [⟨0, 1⟩], bn2 := [⟨0, 1⟩], bn3 := [⟨0, 1⟩],
    rng := ⟨fun _ => true, 0⟩, training := true }

/-- Kernel instance for the dropout claim: two channels per stage,
batch-norm affine parameters `γ = 0, β = 1` (so batch-norm outputs the
constant 1 and the run is insensitive to the inverse-sqrt kernel). -/
def dropout_env : NetEnv :=
  { conv1 := id, conv2 := id, conv3 := id, conv4 := id, conv5 := id,
    conv6 := id, linear1 := id, linear2 := id, maxpool := id, flattenR := id,
    bn1p := [(0, 1), (0, 1)], bn2p := [(0, 1), (0, 1)], bn3p := [(0, 1), (0, 1)],
    invStd := fun _ => 1, xent := fun _ _ => 0 }

/-- Two-channel model state in training mode with an explicit dropout
random stream (bit `n` is `n % 2 = (n / 4) % 2`: the first four draws are
1,0,1,0, the next four 0,1,0,1). -/
def dropout_state : NetState :=
  { bn1 := [⟨0, 1⟩, ⟨0, 1⟩], bn2 := [⟨0, 1⟩, ⟨0, 1⟩], bn3 := [⟨0, 1⟩, ⟨0, 1⟩],
    rng := ⟨fun n => decide (n % 2 = (n / 4) % 2), 0⟩, training := true }

/-- A validation batch of two samples (two values per channel), both
labelled with class 0. -/
def dropout_batch : Tensor × List ℕ := ([[1, 1], [1, 1]], [0, 0])

/-! ## Theorems -/

/-- C4: for every epoch and every training batch in it, the per-batch
update is exactly: compute the batch loss, compute its gradient
(`backward`), apply one optimizer update (`optimizer.step()`, which with
the script's plain SGD subtracts the gradient scaled by the current
learning rate), then clear the gradient buffer (`optimizer.zero_grad()`)
before the next batch; consequently over an epoch the parameters evolve by
one such gradient-descent step per batch. -/
theorem per_batch_update_sequence {B : Type} (env : Autograd B)
    (hwf : ∀ p b, (env.gradOf p b).length = p.length)
    (s : MState) (opt : SGDState) (b : B) (bs : List B)
    (hm : opt.momentum = 0) (hz : isZero s.grads)
    (hglen : s.grads.length = s.params.length) :
    (train_batch env s opt b =
      (zero_grad (opt_step (backward env s b) opt).1,
        (opt_step (backward env s b) opt).2)) ∧
    (train_batch env s opt b).1.params =
      vecSub s.params (smulVec opt.lr (env.gradOf s.params b)) ∧
    isZero (train_batch env s opt b).1.grads ∧
    (train_epoch env bs (s, opt)).1.params =
      bs.foldl (fun p bb => vecSub p (smulVec opt.lr (env.gradOf p bb))) s.params := by
  have h1 := train_batch_eq env s opt b hm hz hglen (hwf _ _)
  refine ⟨rfl, ?_, ?_, (train_epoch_gd env hwf bs s opt hm hz hglen).1⟩
  · rw [h1]
  · rw [h1]
    exact isZero_zerosLike _

/-- Witness for C4: one batch with gradient 1 and learning rate 1/2 moves
the single parameter from 1 to 1/2. -/
theorem per_batch_update_sequence_witness :
    (train_batch (⟨fun _ _ => 1, fun p _ => p.map (fun _ => 1),
        fun _ _ => ⟨0, 0⟩⟩ : Autograd Unit)
      ⟨[1], [0]⟩ ⟨1/2, 0, none⟩ ()).1.params = [1/2] := by
  have h := (per_batch_update_sequence
    (⟨fun _ _ => 1, fun p _ => p.map (fun _ => 1), fun _ _ => ⟨0, 0⟩⟩ : Autograd Unit)
    (fun p _ => List.length_map p _) ⟨[1], [0]⟩ ⟨1/2, 0, none⟩ () []
    rfl (by decide) rfl).2.1
  rw [h]
  simp [vecSub, smulVec]
  norm_num

/-- C7 counterexample: a batch with nonzero loss (loss 1) and nonzero
learning rate (lr 1) on which the gradient vanishes leaves every parameter
unchanged — a nonzero loss does not imply a parameter change. -/
theorem nonzero_loss_no_param_change :
    ((⟨fun _ _ => 1, fun p _ => zerosLike p,
        fun _ _ => ⟨0, 0⟩⟩ : Autograd Unit).lossOf [1] () = 1 ∧ (1 : ℚ) ≠ 0) ∧
    ((⟨1, 0, none⟩ : SGDState).lr = 1 ∧ (1 : ℚ) ≠ 0) ∧
    (train_batch (⟨fun _ _ => 1, fun p _ => zerosLike p,
        fun _ _ => ⟨0, 0⟩⟩ : Autograd Unit)
      ⟨[1], [0]⟩ ⟨1, 0, none⟩ ()).1.params = [1] := by
  refine ⟨⟨rfl, by norm_num⟩, ⟨rfl, by norm_num⟩, ?_⟩
  simp [train_batch, backward, opt_step, zero_grad, sgd_step, vecAdd, vecSub,
    smulVec, zerosLike]

/-- C7 (amended): after the optimizer update step for a batch, with the
script's plain SGD, a cleared incoming gradient buffer, a nonzero learning
rate and a nonzero gradient for the batch (rather than a nonzero loss:
the update depends on the loss only through its gradient, which can vanish
at a nonzero loss), at least one parameter differs from its pre-step
value. -/
theorem step_changes_params_of_nonzero_grad {B : Type} (env : Autograd B)
    (s : MState) (opt : SGDState) (b : B)
    (hm : opt.momentum = 0) (hlr : opt.lr ≠ 0)
    (hz : isZero s.grads) (hglen : s.grads.length = s.params.length)
    (hwb : (env.gradOf s.params b).length = s.params.length)
    (hg : ¬ isZero (env.gradOf s.params b)) :
    (train_batch env s opt b).1.params ≠ s.params := by
  have hp : (train_batch env s opt b).1.params =
      vecSub s.params (smulVec opt.lr (env.gradOf s.params b)) := by
    rw [train_batch_eq env s opt b hm hz hglen hwb]
  rw [hp]
  intro hEq
  simp only [isZero] at hg
  push_neg at hg
  obtain ⟨x, hx, hx0⟩ := hg
  exact absurd (vecSub_smul_eq_self s.params (env.gradOf s.params b) opt.lr
    hwb hEq x hx) (mul_ne_zero hlr hx0)

/-- C9 (amended): the history `fit` returns is an append-only ordered
sequence of `{validation loss, validation accuracy}` records — the epoch
index is the record's position, not a field of the record — gaining exactly
one record per completed epoch: after `epochs` epochs it has exactly
`epochs` records, and running one more epoch appends exactly one record
after the existing ones, leaving them unchanged. -/
theorem history_one_record_per_epoch {B : Type} (env : Autograd B)
    (tb vb : List B) (hvb : vb ≠ []) (epochs : ℕ) (m : MState)
    (lr momentum : ℚ) :
    ∃ hist m1 opt1, fit env epochs lr m tb vb momentum = some (hist, m1, opt1) ∧
      hist.length = epochs ∧
      ∃ m2 opt2 r, fit env (epochs + 1) lr m tb vb momentum =
        some (hist ++ [r], m2, opt2) :=
  fit_loop_run env tb vb hvb epochs m (SGDState.fresh lr momentum)

/-- Witness for C9: a 3-epoch run on one training and one validation batch
produces a 3-record history that the 4-epoch run extends by one record. -/
theorem history_one_record_per_epoch_witness :
    ∃ hist m1 opt1, fit (⟨fun _ _ => 0, fun p _ => zerosLike p,
        fun _ _ => ⟨5, 1⟩⟩ : Autograd Unit) 3 1 ⟨[0], [0]⟩ [()] [()] 0 =
      some (hist, m1, opt1) ∧ hist.length = 3 ∧
      ∃ m2 opt2 r, fit (⟨fun _ _ => 0, fun p _ => zerosLike p,
          fun _ _ => ⟨5, 1⟩⟩ : Autograd Unit) (3 + 1) 1 ⟨[0], [0]⟩ [()] [()] 0 =
        some (hist ++ [r], m2, opt2) :=
  history_one_record_per_epoch
    (⟨fun _ _ => 0, fun p _ => zerosLike p, fun _ _ => ⟨5, 1⟩⟩ : Autograd Unit)
    [()] [()] (by simp) 3 ⟨[0], [0]⟩ 1 0

/-- C9 counterexample: the records `fit` appends contain only the
validation loss and accuracy, not the epoch index — a 2-epoch run with
constant metrics yields two equal records, so no function of a record alone
can recover its epoch index. -/
theorem history_records_no_epoch_index :
    ((fit (⟨fun _ _ => 0, fun p _ => zerosLike p,
          fun _ _ => ⟨5, 1⟩⟩ : Autograd Unit) 2 1
        ⟨[0], [0]⟩ [()] [()] 0).map Prod.fst = some [⟨5, 1⟩, ⟨5, 1⟩]) ∧
    ¬ ∃ f : ValResult → ℕ, ∀ (hist : List ValResult),
        (fit (⟨fun _ _ => 0, fun p _ => zerosLike p,
            fun _ _ => ⟨5, 1⟩⟩ : Autograd Unit) 2 1
          ⟨[0], [0]⟩ [()] [()] 0).map Prod.fst = some hist →
        ∀ i : Fin hist.length, f (hist.get i) = i.1 := by
  have hrun : (fit (⟨fun _ _ => 0, fun p _ => zerosLike p,
        fun _ _ => ⟨5, 1⟩⟩ : Autograd Unit) 2 1
      ⟨[0], [0]⟩ [()] [()] 0).map Prod.fst = some [⟨5, 1⟩, ⟨5, 1⟩] := by
    norm_num [fit, fit_loop, train_epoch, train_batch, backward, opt_step,
      zero_grad, sgd_step, evaluate, validation_outputs, validation_epoch_end,
      stack, meanQ, fit_vstep, vecAdd, vecSub, smulVec, zerosLike,
      SGDState.fresh]
  refine ⟨hrun, ?_⟩
  rintro ⟨f, hf⟩
  have h := hf [⟨5, 1⟩, ⟨5, 1⟩] hrun
  have h0 := h ⟨0, by norm_num⟩
  have h1 := h ⟨1, by norm_num⟩
  simp only [List.get] at h0 h1
  omega

/-- C1 counterexample: a one-epoch phase with SGD momentum 1/2 on one batch
of gradient 1 ends with the optimizer's momentum buffer holding `[1]`,
while the next `fit` invocation starts from the freshly constructed
optimizer of line 120, whose buffer is empty — the optimizer state at the
start of phase k+1 is not the state at the end of phase k. -/
theorem optimizer_state_not_persisted :
    (fit (⟨fun _ _ => 0, fun _ _ => [1], fun _ _ => ⟨0, 0⟩⟩ : Autograd Unit)
        1 1 ⟨[0], [0]⟩ [()] [()] (1/2)) =
      some ([⟨0, 0⟩], ⟨[-1], [0]⟩, ⟨1, 1/2, some [1]⟩) ∧
    SGDState.fresh 1 (1/2) = ⟨1, 1/2, none⟩ ∧
    (⟨1, 1/2, some [1]⟩ : SGDState) ≠ SGDState.fresh 1 (1/2) := by
  refine ⟨?_, rfl, by simp [SGDState.fresh]⟩
  norm_num [fit, fit_loop, train_epoch, train_batch, backward, opt_step,
    zero_grad, sgd_step, evaluate, validation_outputs, validation_epoch_end,
    stack, meanQ, fit_vstep, vecAdd, vecSub, smulVec, zerosLike,
    SGDState.fresh]

/-- C1 (amended): each `fit` invocation constructs its optimizer afresh
(line 120), with an empty momentum buffer, so the optimizer's internal
state does not persist from one phase into the next; what does persist
across chained phases is the model instance — `run_phases` hands phase k's
final model state to phase k+1 and discards phase k's optimizer.  With the
script's own optimizer (plain SGD, momentum 0) the optimizer holds no
evolving internal state at all: its state is invariant under `step()`. -/
theorem fit_fresh_optimizer_params_persist {B : Type} (env : Autograd B)
    (e : ℕ) (lr momentum : ℚ) (m : MState) (tb vb : List B)
    (rest : List (ℕ × ℚ)) :
    (fit env e lr m tb vb momentum =
      fit_loop env tb vb e m (SGDState.fresh lr momentum) []) ∧
    (SGDState.fresh lr momentum).buf = none ∧
    (run_phases env momentum tb vb m ((e, lr) :: rest) =
      match fit env e lr m tb vb momentum with
      | none => none
      | some (h, m1, _) =>
        match run_phases env momentum tb vb m1 rest with
        | none => none
        | some (h2, m2) => some (h ++ h2, m2)) ∧
    (∀ (params grads : Vec) (opt : SGDState), opt.momentum = 0 →
      (sgd_step opt params grads).2 = opt) := by
  refine ⟨rfl, rfl, rfl, ?_⟩
  intro p g opt hm
  simp [sgd_step, hm]

/-- Witness for the amended C1: a concrete SGD step with momentum 0 leaves
the optimizer state untouched. -/
theorem fit_fresh_optimizer_witness :
    (sgd_step ⟨1, 0, none⟩ [2] [3]).2 = ⟨1, 0, none⟩ :=
  (fit_fresh_optimizer_params_persist
    (⟨fun _ _ => 0, fun _ _ => [0], fun _ _ => ⟨0, 0⟩⟩ : Autograd Unit)
    1 1 0 ⟨[0], [0]⟩ [] [] []).2.2.2 [2] [3] ⟨1, 0, none⟩ rfl

/-- Witness for the amended C7: gradient 1, learning rate 1/2 — the
parameter moves away from 5. -/
theorem step_changes_params_witness :
    (train_batch (⟨fun _ _ => 1, fun p _ => p.map (fun _ => 1),
        fun _ _ => ⟨0, 0⟩⟩ : Autograd Unit)
      ⟨[5], [0]⟩ ⟨1/2, 0, none⟩ ()).1.params ≠ [5] :=
  step_changes_params_of_nonzero_grad
    (⟨fun _ _ => 1, fun p _ => p.map (fun _ => 1), fun _ _ => ⟨0, 0⟩⟩ : Autograd Unit)
    ⟨[5], [0]⟩ ⟨1/2, 0, none⟩ () rfl (by norm_num) (by decide) rfl
    (List.length_map _ _) (by simp [isZero])

/-- C3 (the code violates the claim): the script leaves every module in
training mode (`nn.Module`s start there and `model.eval()` is never
called), so the forward passes `evaluate` runs update the batch-norm
modules' running statistics — on a concrete batch, `bn1`'s running mean and
variance after `evaluate` differ from their values before. -/
theorem evaluate_mutates_bn_stats :
    (NetState.initial ⟨fun _ => true, 0⟩).training = true ∧
    bnstat_state.training = true ∧
    (evaluate (net_validation_step bnstat_env) bnstat_state
      [([[0, 4]], [0])]).1.bn1 ≠ bnstat_state.bn1 := by
  refine ⟨rfl, rfl, ?_⟩
  norm_num [evaluate, validation_outputs, net_validation_step, forward,
    bn_apply, bn_chan_train, bn_chan_eval, reluT, dropout_apply,
    dropout_tensor, dropout_vals, RNG.next, meanQ, bnMomentum,
    validation_epoch_end, stack, bnstat_env, bnstat_state, max_def,
    accuracy, argmaxIdx]

/-- C2 (the code violates the claim): with every module still in training
mode, `dropout1` draws a fresh random mask on each forward pass, so running
`evaluate` twice in succession on the same partition with no training step
in between yields different metrics: on a concrete batch the first run
reports accuracy 1 and the second run accuracy 0. -/
theorem evaluate_twice_differs :
    dropout_state.training = true ∧
    (evaluate (net_validation_step dropout_env) dropout_state
      [dropout_batch]).2 = some ⟨0, 1⟩ ∧
    (evaluate (net_validation_step dropout_env)
      (evaluate (net_validation_step dropout_env) dropout_state
        [dropout_batch]).1 [dropout_batch]).2 = some ⟨0, 0⟩ ∧
    some (⟨0, 1⟩ : ValResult) ≠ some (⟨0, 0⟩ : ValResult) := by
  refine ⟨rfl, ?_, ?_, by simp⟩ <;>
  norm_num [evaluate, validation_outputs, net_validation_step, forward,
    bn_apply, bn_chan_train, bn_chan_eval, reluT, dropout_apply,
    dropout_tensor, dropout_vals, RNG.next, meanQ, bnMomentum,
    validation_epoch_end, stack, dropout_env, dropout_state, dropout_batch,
    max_def, accuracy, argmaxIdx]

/-- C6: for a corpus of 50000 train+validation images split with the
script's sizes, the validation partition has exactly 5000 samples, the
training partition exactly 45000, the sizes sum to the corpus size, and the
two partitions share no corpus index. -/
theorem split_sizes_and_disjoint (perm : List ℕ) (hnd : perm.Nodup)
    (hlen : perm.length = dataset_size) :
    (random_split perm (train_size dataset_size) val_size).1.length = 45000 ∧
    (random_split perm (train_size dataset_size) val_size).2.length = 5000 ∧
    (random_split perm (train_size dataset_size) val_size).1.length +
      (random_split perm (train_size dataset_size) val_size).2.length = dataset_size ∧
    (random_split perm (train_size dataset_size) val_size).1.Disjoint
      (random_split perm (train_size dataset_size) val_size).2 := by
  have htr : train_size dataset_size = 45000 := by decide
  have h1 : (random_split perm (train_size dataset_size) val_size).1.length = 45000 := by
    show (perm.take (train_size dataset_size)).length = 45000
    rw [List.length_take, hlen, htr]
    decide
  have h2 : (random_split perm (train_size dataset_size) val_size).2.length = 5000 := by
    show ((perm.drop (train_size dataset_size)).take val_size).length = 5000
    rw [List.length_take, List.length_drop, hlen, htr]
    decide
  refine ⟨h1, h2, by rw [h1, h2]; decide, ?_⟩
  have hsplit := List.take_append_drop (train_size dataset_size) perm
  have hnd2 : (perm.take (train_size dataset_size) ++
      perm.drop (train_size dataset_size)).Nodup := by rwa [hsplit]
  have hdisj : (perm.take (train_size dataset_size)).Disjoint
      (perm.drop (train_size dataset_size)) := (List.nodup_append.mp hnd2).2.2
  intro a ha hb
  exact hdisj ha (List.take_subset _ _ hb)

/-- Witness for C6 at the identity permutation of the corpus indices. -/
theorem split_sizes_and_disjoint_witness :
    (List.range dataset_size).Nodup ∧
    (List.range dataset_size).length = dataset_size ∧
    (random_split (List.range dataset_size) (train_size dataset_size)
      val_size).1.length = 45000 :=
  ⟨List.nodup_range _, List.length_range _,
    (split_sizes_and_disjoint (List.range dataset_size) (List.nodup_range _)
      (List.length_range _)).1⟩

/-- C8 counterexample: not every data loader uses batch size 128 — the
validation loader is built with `batch_size*2 = 256` (line 67). -/
theorem val_loader_batch_not_128 : val_loader_batch = 256 ∧ val_loader_batch ≠ 128 := by
  decide

/-- C8 (amended): the script's hardcoded hyperparameters are: training
loader batch size 128, validation and test loader batch size 256
(`batch_size*2`), exactly 4 training phases of 10 epochs each at learning
rates 1e-1, 1e-2, 1e-3, 1e-4 in that order, and split seed 43. -/
theorem script_hyperparameters :
    train_loader_batch = 128 ∧ val_loader_batch = 256 ∧ test_loader_batch = 256 ∧
    phase_list.length = 4 ∧ (∀ p ∈ phase_list, p.1 = 10) ∧
    phase_list.map Prod.snd = [1/10, 1/100, 1/1000, 1/10000] ∧
    split_seed = 43 := by
  refine ⟨rfl, rfl, rfl, rfl, ?_, by norm_num [phase_list], rfl⟩
  intro p hp
  simp only [phase_list, List.mem_cons, List.not_mem_nil, or_false] at hp
  rcases hp with h | h | h | h <;> subst h <;> rfl

/-- C10: on a partition yielding at least one batch, `evaluate` returns the
means of the per-batch losses and accuracies; on a partition yielding zero
batches the aggregation fails (`torch.stack` of an empty list raises) and
no result is returned. -/
theorem evaluate_mean_metrics {σ B : Type} (vstep : σ → B → σ × ValResult)
    (s : σ) (bs : List B) :
    (bs ≠ [] →
      (evaluate vstep s bs).2 =
        some ⟨meanQ ((validation_outputs vstep s bs).2.map ValResult.val_loss),
              meanQ ((validation_outputs vstep s bs).2.map ValResult.val_acc)⟩) ∧
    (evaluate vstep s ([] : List B)).2 = none := by
  constructor
  · intro hne
    cases bs with
    | nil => exact absurd rfl hne
    | cons b rest =>
      simp only [evaluate, validation_outputs]
      simp [validation_epoch_end, stack]
  · rfl

/-- Witness for C10 on a two-batch partition with constant per-batch
metrics. -/
theorem evaluate_mean_metrics_witness :
    (evaluate (fun (_ : Unit) (_ : Unit) => ((), (⟨3, 1⟩ : ValResult))) ()
      [(), ()]).2 = some ⟨3, 1⟩ := by
  have h := (evaluate_mean_metrics
    (fun (_ : Unit) (_ : Unit) => ((), (⟨3, 1⟩ : ValResult))) () [(), ()]).1
    (by simp)
  simpa [validation_outputs, meanQ] using h

/-- C5: the embedded `forward` is exactly the staged pipeline the spec
describes — three stages of two convolutions, each convolution followed by
the activation and then batch normalisation through that stage's single
shared batch-norm module, each stage ending in the pooling step — followed
by flatten and the two fully-connected layers with the dropout step between
them; on the shape side, each stage halves the spatial resolution
(32→16→8→4 with channels 3→9→18→36), the flattened feature count 576
matches `linear1`, the full pipeline typechecks to the 10 class scores, and
in eval mode the dropout step is the identity (active only during
training). -/
theorem forward_is_staged (env : NetEnv) (s : NetState) (xb : Tensor) :
    (forward env s xb =
      (let (b1, o1) := spec_stage env env.conv1 env.conv2 env.bn1p s.training s.bn1 xb
       let (b2, o2) := spec_stage env env.conv3 env.conv4 env.bn2p s.training s.bn2 o1
       let (b3, o3) := spec_stage env env.conv5 env.conv6 env.bn3p s.training s.bn3 o2
       let (r, out) := spec_head env s.training s.rng o3
       ({ bn1 := b1, bn2 := b2, bn3 := b3, rng := r, training := s.training }, out))) ∧
    stage_shape 3 9 ⟨3, 32, 32⟩ = some ⟨9, 16, 16⟩ ∧
    stage_shape 9 18 ⟨9, 16, 16⟩ = some ⟨18, 8, 8⟩ ∧
    stage_shape 18 36 ⟨18, 8, 8⟩ = some ⟨36, 4, 4⟩ ∧
    flatten_shape ⟨36, 4, 4⟩ = 576 ∧
    cifar_shape ⟨3, 32, 32⟩ = some 10 ∧
    (∀ (r : RNG) (x : Tensor), dropout_apply false r x = (r, x)) := by
  refine ⟨?_, by decide, by decide, by decide, by decide, by decide, ?_⟩
  · rfl
  · intro r x
    simp [dropout_apply]

end Framework
